import Mathlib

/-!
Shallow embedding of the multi-transport connection manager in
`backup/app.go` (package `backup`, type `Client`).

The Go code owns three optional transport handles (`tcpConn`, `udpConn`,
`serialPort`), a background serial read goroutine controlled by an
`isReading` flag and a `stopRead` channel, and emits UI notifications via
`runtime.EventsEmit`.  Pure state manipulation is embedded directly;
interactions with the operating system (dialing, opening a serial device,
the bytes a device delivers) are passed in as explicit parameters, and the
events emitted by an operation are returned as an explicit list.
Operations that can hit a Go runtime panic (closing a closed or nil
channel) return `Except GoPanic`.
-/

namespace Backup

/-- Payload bytes, standing in for Go `[]byte`. -/
abbrev Bytes := List Nat

/-- Model of a `net.Conn` / `*net.UDPConn` handle as the manager can
observe it: whether it has been closed, how its `Write` behaves
(`writeErr = none` means writes succeed), and the log of payloads
successfully written to it. -/
structure Conn where
  closed : Bool
  writeErr : Option String
  written : List Bytes
  deriving Repr, DecidableEq

/-- Model of a `serial.Port` handle: the device identifier it was opened
on, whether it has been closed, how `Write` and `Close` behave, and the
log of payloads successfully written. -/
structure SPort where
  name : String
  closed : Bool
  writeErr : Option String
  closeErr : Option String
  written : List Bytes
  deriving Repr, DecidableEq

/-- `conn.Write(data)` on a socket handle: fails once the handle is
closed, otherwise fails iff the handle's write behaviour says so, and on
success appends the payload to the log. -/
def connWrite (h : Conn) (data : Bytes) : Conn × Option String :=
  if h.closed then (h, some "use of closed network connection")
  else
    match h.writeErr with
    | some e => (h, some e)
    | none => ({ h with written := h.written ++ [data] }, none)

/-- `conn.Close()` on a socket handle (the manager ignores its error). -/
def connClose (h : Conn) : Conn :=
  { h with closed := true }

/-- `port.Write(data)` on a serial handle. -/
def portWrite (h : SPort) (data : Bytes) : SPort × Option String :=
  if h.closed then (h, some "port closed")
  else
    match h.writeErr with
    | some e => (h, some e)
    | none => ({ h with written := h.written ++ [data] }, none)

/-- `port.Close()` on a serial handle: succeeds (marking the handle
closed) unless the handle's close behaviour reports an error, in which
case the handle is left open exactly as the next close attempt will see
it. Closing an already closed handle is a tolerated no-op. -/
def portClose (h : SPort) : SPort × Option String :=
  if h.closed then (h, none)
  else
    match h.closeErr with
    | some e => (h, some e)
    | none => ({ h with closed := true }, none)

/-- The Go errors `Client`'s methods construct (`fmt.Errorf` messages in
`backup/app.go`), plus `transport` for the raw error values `SendData`
returns unwrapped. -/
inductive GoError
  | tcpConnectFailed (msg : String)   -- "TCP连接失败: %v"
  | udpResolveFailed (msg : String)   -- "UDP地址解析失败: %v"
  | udpConnectFailed (msg : String)   -- "UDP连接失败: %v"
  | serialOpenFailed (msg : String)   -- "串口打开失败: %v"
  | serialNotConnected                -- "串口未连接"
  | writeFailed (msg : String)        -- "写入数据失败: %v"
  | closeSerialFailed (msg : String)  -- "关闭串口失败: %v"
  | tcpNotConnected                   -- "TCP未连接"
  | udpNotConnected                   -- "UDP未连接"
  | transport (msg : String)          -- raw error propagated by SendData
  | unknownConnType (s : String)      -- "未知的连接类型: %s"
  | enumerationFailed (msg : String)  -- "获取串口列表失败: %v"
  deriving Repr, DecidableEq

/-- Go runtime panics the embedding can encounter: `close` of an already
closed channel and `close` of a nil channel. -/
inductive GoPanic
  | closeOfClosedChannel
  | closeOfNilChannel
  deriving Repr, DecidableEq

/-- Events emitted to the notification sink via `runtime.EventsEmit`. -/
inductive Ev
  | connected (port : String)   -- topic "serial:connected", payload = port name
  | disconnected                -- topic "serial:disconnected"
  | data (bs : Bytes)           -- topic "serial:data", payload = bytes read
  deriving Repr, DecidableEq

/-- The `Client` struct of `backup/app.go`.  `stopRead = none` models the
nil channel of a fresh struct; `some b` models an allocated channel whose
closed flag is `b`. -/
structure Client where
  tcpConn : Option Conn
  udpConn : Option Conn
  serialPort : Option SPort
  isReading : Bool
  stopRead : Option Bool
  deriving Repr, DecidableEq

/-- `NewClient()`: the zero-valued struct. -/
def NewClient : Client :=
  { tcpConn := none, udpConn := none, serialPort := none,
    isReading := false, stopRead := none }

/-- `SerialPortInfo` as returned by `GetSerialPorts`. -/
structure SerialPortInfo where
  name : String
  description : String
  isOpen : Bool
  deriving Repr, DecidableEq

/-- `TCPConfig` / `UDPConfig`: a `host:port` address string. -/
structure TCPConfig where
  address : String
  deriving Repr, DecidableEq

structure UDPConfig where
  address : String
  deriving Repr, DecidableEq

/-- The string-valued configuration enums of `backup/app.go`. -/
abbrev StopBits := String
abbrev Parity := String
abbrev FlowControl := String

def Stop1 : StopBits := "1"
def Stop1Half : StopBits := "1.5"
def Stop2 : StopBits := "2"

def ParityNone : Parity := "N"
def ParityOdd : Parity := "O"
def ParityEven : Parity := "E"
def ParityMark : Parity := "M"
def ParitySpace : Parity := "S"

/-- `SerialConfig`. -/
structure SerialConfig where
  portName : String
  baudRate : Int
  dataBits : Int
  stopBits : StopBits
  parity : Parity
  flowControl : FlowControl
  deriving Repr, DecidableEq

/-- The `serial.StopBits` constants of the go.bug.st/serial library. -/
inductive LibStopBits
  | oneStopBit
  | onePointFiveStopBits
  | twoStopBits
  deriving Repr, DecidableEq

/-- The `serial.Parity` constants of the go.bug.st/serial library. -/
inductive LibParity
  | noParity
  | oddParity
  | evenParity
  | markParity
  | spaceParity
  deriving Repr, DecidableEq

/-- `serial.Mode` as constructed by `ConnectSerial` (flow control is not
mapped by the source). -/
structure Mode where
  baudRate : Int
  dataBits : Int
  stopBits : LibStopBits
  parity : LibParity
  deriving Repr, DecidableEq

/-- `getStopBits` of `backup/app.go`: switch over the string enum with
`OneStopBit` as the default arm. -/
def getStopBits (stopBits : StopBits) : LibStopBits :=
  if stopBits = Stop1 then .oneStopBit
  else if stopBits = Stop1Half then .onePointFiveStopBits
  else if stopBits = Stop2 then .twoStopBits
  else .oneStopBit

/-- `getParity` of `backup/app.go`: switch over the string enum with
`NoParity` as the default arm. -/
def getParity (parity : Parity) : LibParity :=
  if parity = ParityNone then .noParity
  else if parity = ParityOdd then .oddParity
  else if parity = ParityEven then .evenParity
  else if parity = ParityMark then .markParity
  else if parity = ParitySpace then .spaceParity
  else .noParity

/-- `stopSerialRead`: if `isReading`, clear the flag and `close(stopRead)`.
Closing a closed or nil channel is a Go panic. -/
def stopSerialRead (c : Client) : Except GoPanic Client :=
  if c.isReading then
    match c.stopRead with
    | none => .error .closeOfNilChannel
    | some true => .error .closeOfClosedChannel
    | some false => .ok { c with isReading := false, stopRead := some true }
  else .ok c

/-- The synchronous effect of `startSerialRead`: allocate a fresh
`stopRead` channel and set `isReading`.  (The goroutine it spawns is
modelled separately, in the interleaving semantics below.) -/
def startSerialRead (c : Client) : Client :=
  { c with stopRead := some false, isReading := true }

/-- `ConnectTCP(config)`: close a previous TCP connection if any (its
error is ignored and the field keeps pointing at the now-closed handle),
then dial; on dial failure return `tcpConnectFailed` without touching any
other field, on success store the new connection.  `dial` stands for
`net.Dial("tcp", config.Address)`. -/
def ConnectTCP (c : Client) (config : TCPConfig)
    (dial : String → Except String Conn) : Client × Option GoError :=
  let c₁ :=
    match c.tcpConn with
    | some h => { c with tcpConn := some (connClose h) }
    | none => c
  match dial config.address with
  | .error e => (c₁, some (.tcpConnectFailed e))
  | .ok conn => ({ c₁ with tcpConn := some conn }, none)

/-- `ConnectUDP(config)`: close a previous UDP connection if any, resolve
the address, then dial.  `resolve` stands for `net.ResolveUDPAddr` and
`dial` for `net.DialUDP` on the resolved address. -/
def ConnectUDP (c : Client) (config : UDPConfig)
    (resolve : String → Except String String)
    (dial : String → Except String Conn) : Client × Option GoError :=
  let c₁ :=
    match c.udpConn with
    | some h => { c with udpConn := some (connClose h) }
    | none => c
  match resolve config.address with
  | .error e => (c₁, some (.udpResolveFailed e))
  | .ok addr =>
      match dial addr with
      | .error e => (c₁, some (.udpConnectFailed e))
      | .ok conn => ({ c₁ with udpConn := some conn }, none)

/-- The `serial.Mode` literal built inside `ConnectSerial`. -/
def mkMode (config : SerialConfig) : Mode :=
  { baudRate := config.baudRate, dataBits := config.dataBits,
    stopBits := getStopBits config.stopBits,
    parity := getParity config.parity }

/-- `ConnectSerial(config)`: if a serial port is open, stop the read loop
and close it (the close error is ignored; the field keeps pointing at the
handle).  Build the `serial.Mode` from the config, open the device; on
failure return `serialOpenFailed` and emit nothing; on success store the
port, start the read loop, and emit `serial:connected` with the
configured port name.  `openDev` stands for `serial.Open`. -/
def ConnectSerial (c : Client) (config : SerialConfig)
    (openDev : String → Mode → Except String SPort) :
    Except GoPanic (Client × Option GoError × List Ev) := do
  let c₁ ←
    match c.serialPort with
    | some h => do
        let c' ← stopSerialRead c
        pure { c' with serialPort := some (portClose h).1 }
    | none => pure c
  match openDev config.portName (mkMode config) with
  | .error e => .ok (c₁, some (.serialOpenFailed e), [])
  | .ok port =>
      let c₂ := startSerialRead { c₁ with serialPort := some port }
      .ok (c₂, none, [.connected config.portName])

/-- `WriteSerial(data)`: fail with `serialNotConnected` if no port handle
is stored; otherwise forward the bytes to the port's `Write` and wrap any
error as `writeFailed`. -/
def WriteSerial (c : Client) (data : Bytes) : Client × Option GoError :=
  match c.serialPort with
  | none => (c, some .serialNotConnected)
  | some h =>
      let (h', err) := portWrite h data
      match err with
      | some e => ({ c with serialPort := some h' }, some (.writeFailed e))
      | none => ({ c with serialPort := some h' }, none)

/-- `CloseSerial()`: no-op success when no port handle is stored;
otherwise stop the read loop, close the port (a close error is returned
as `closeSerialFailed`, leaving the field populated), then clear the
field and emit `serial:disconnected`. -/
def CloseSerial (c : Client) :
    Except GoPanic (Client × Option GoError × List Ev) :=
  match c.serialPort with
  | none => .ok (c, none, [])
  | some h => do
      let c₁ ← stopSerialRead c
      let (h', err) := portClose h
      match err with
      | some e =>
          .ok ({ c₁ with serialPort := some h' }, some (.closeSerialFailed e), [])
      | none =>
          .ok ({ c₁ with serialPort := none }, none, [.disconnected])

/-- `isCurrentPort(portName)`: the source's stub — `false` when no port
is open, otherwise literally `true` (the TODO comment in the source says
the real comparison is unimplemented). -/
def isCurrentPort (c : Client) (portName : String) : Bool :=
  match c.serialPort with
  | none => false
  | some _ => true

/-- `getPortDescription(portName)`: the source's stub returns the name. -/
def getPortDescription (portName : String) : String :=
  portName

/-- `GetSerialPorts()`: enumerate (the enumerator's outcome is the
`ports` parameter, standing for `serial.GetPortsList()`), then mark each
descriptor open iff `serialPort != nil && isCurrentPort(port)`. -/
def GetSerialPorts (c : Client) (ports : Except String (List String)) :
    Except GoError (List SerialPortInfo) :=
  match ports with
  | .error e => .error (.enumerationFailed e)
  | .ok ps =>
      .ok (ps.map fun p =>
        { name := p, description := getPortDescription p,
          isOpen := c.serialPort.isSome && isCurrentPort c p })

/-- `SendData(connType, data)`: dispatch on the kind string; each branch
fails with its kind-specific "not connected" error when that kind's
handle is nil, otherwise writes to that handle and returns the raw write
error; any other kind string yields `unknownConnType`. -/
def SendData (c : Client) (connType : String) (data : Bytes) :
    Client × Option GoError :=
  if connType = "tcp" then
    match c.tcpConn with
    | none => (c, some .tcpNotConnected)
    | some h =>
        let (h', err) := connWrite h data
        ({ c with tcpConn := some h' }, err.map .transport)
  else if connType = "udp" then
    match c.udpConn with
    | none => (c, some .udpNotConnected)
    | some h =>
        let (h', err) := connWrite h data
        ({ c with udpConn := some h' }, err.map .transport)
  else if connType = "serial" then
    match c.serialPort with
    | none => (c, some .serialNotConnected)
    | some h =>
        let (h', err) := portWrite h data
        ({ c with serialPort := some h' }, err.map .transport)
  else
    (c, some (.unknownConnType connType))

/-- `Close()` ("close all"): close and clear each of the three handles
that is non-nil.  Note the source does NOT call `stopSerialRead` here. -/
def Close (c : Client) : Client :=
  let c₁ :=
    match c.tcpConn with
    | some _ => { c with tcpConn := none }   -- h.Close() error ignored, field cleared
    | none => c
  let c₂ :=
    match c₁.udpConn with
    | some _ => { c₁ with udpConn := none }
    | none => c₁
  match c₂.serialPort with
  | some _ => { c₂ with serialPort := none }
  | none => c₂

/-- Channel sanity invariant of Go-reachable clients: while `isReading`
is set, `stopRead` is an allocated, not yet closed channel.  It holds of
`NewClient` and is preserved by every operation; the theorems that run
`stopSerialRead` assume it. -/
def ChanInv (c : Client) : Prop :=
  c.isReading = true → c.stopRead = some false

instance (c : Client) : Decidable (ChanInv c) := by
  unfold ChanInv; infer_instance

/-! ### Concrete sample states used by several concrete evaluations -/

/-- A healthy open serial handle on device "COM3". -/
def sampPort : SPort :=
  { name := "COM3", closed := false, writeErr := none, closeErr := none,
    written := [] }

/-- A healthy open socket handle. -/
def sampConn : Conn :=
  { closed := false, writeErr := none, written := [] }

/-- The client state right after a successful `ConnectSerial` on a fresh
client: the serial handle is stored and the read loop has been started. -/
def clientSerialActive : Client :=
  { tcpConn := none, udpConn := none, serialPort := some sampPort,
    isReading := true, stopRead := some false }

/-- A client holding only an open TCP connection. -/
def clientTCPActive : Client :=
  { tcpConn := some sampConn, udpConn := none, serialPort := none,
    isReading := false, stopRead := none }

/-- A sample serial configuration: COM3 at 9600/8/N/1, no flow control. -/
def cfg9600 : SerialConfig :=
  { portName := "COM3", baudRate := 9600, dataBits := 8,
    stopBits := Stop1, parity := ParityNone, flowControl := "none" }

/-!
### Interleaving semantics of `ConnectSerial` + read goroutine

`startSerialRead` spawns a goroutine that loops: check `isReading`,
select on `stopRead`, check `serialPort`, `Read` with a 100 ms timeout,
and emit `serial:data` for every successful read of `n > 0` bytes.  The
goroutine takes no lock, so its steps interleave freely with the
statements the foreground thread executes — including the statements of
`ConnectSerial` itself that run after `startSerialRead` (notably the
`serial:connected` emission) and the statements of a later `CloseSerial`.

The model below replays one foreground scenario — a successful
`ConnectSerial(config)` on a fresh client followed by `CloseSerial()` —
as a list of atomic foreground actions, runs the goroutine as a second
thread (its read and its emit are separate atomic steps, since
`runtime.EventsEmit` happens well after `Read` returns), and lets an
arbitrary schedule pick which thread steps next.
-/

/-- Atomic foreground actions of `ConnectSerial` followed by
`CloseSerial`.  All of them hold the manager lock, which the reader
goroutine never takes. -/
inductive MAct
  | closePrev                  -- ConnectSerial: close a previous serial session
  | openOK (port : SPort)      -- serial.Open succeeds; c.serialPort = port
  | startRead                  -- startSerialRead: allocate channel, set flag, spawn reader
  | emitConnected (pn : String) -- runtime.EventsEmit "serial:connected"
  | closeSerialAct             -- the entire CloseSerial body
  deriving Repr, DecidableEq

/-- State of the two-thread system: the shared `Client`, the chunks the
serial device will deliver on successive reads, the bytes the reader has
read but not yet emitted, the reader goroutine's status, the foreground
thread's remaining actions, and the global emission order seen by the
notification sink. -/
structure Sys where
  client : Client
  device : List Bytes
  pending : Option Bytes
  readerSpawned : Bool
  readerDone : Bool
  prog : List MAct
  events : List Ev
  deriving Repr, DecidableEq

/-- Non-panicking `stopSerialRead` used inside atomic foreground actions
(sound for states satisfying `ChanInv`, which the replayed scenario
maintains). -/
def stopReadTotal (c : Client) : Client :=
  if c.isReading then { c with isReading := false, stopRead := some true }
  else c

/-- One step of the foreground thread: execute the next atomic action. -/
def stepMain (s : Sys) : Sys :=
  match s.prog with
  | [] => s
  | act :: rest =>
    let s := { s with prog := rest }
    match act with
    | .closePrev =>
        match s.client.serialPort with
        | some h =>
            let c := stopReadTotal s.client
            { s with client := { c with serialPort := some (portClose h).1 } }
        | none => s
    | .openOK port =>
        { s with client := { s.client with serialPort := some port } }
    | .startRead =>
        { s with client := startSerialRead s.client, readerSpawned := true }
    | .emitConnected pn =>
        { s with events := s.events ++ [.connected pn] }
    | .closeSerialAct =>
        match s.client.serialPort with
        | none => s
        | some h =>
            let c := stopReadTotal s.client
            let (h', err) := portClose h
            match err with
            | some _ => { s with client := { c with serialPort := some h' } }
            | none =>
                { s with client := { c with serialPort := none },
                         events := s.events ++ [.disconnected] }

/-- One step of the reader goroutine.  If it has read bytes it has not
yet emitted, the step is the `serial:data` emission; otherwise the step
is one loop iteration up to and including the `Read` call: check
`isReading`, select on `stopRead`, check `serialPort`, then read (a
timeout or error just retries; `n > 0` bytes become pending). -/
def stepReader (s : Sys) : Sys :=
  if s.readerSpawned = false ∨ s.readerDone = true then s
  else
    match s.pending with
    | some bs => { s with events := s.events ++ [.data bs], pending := none }
    | none =>
      if s.client.isReading = false then { s with readerDone := true }
      else if s.client.stopRead = some true then { s with readerDone := true }
      else if s.client.serialPort = none then { s with readerDone := true }
      else
        match s.device with
        | [] => s
        | bs :: rest =>
            if bs = [] then { s with device := rest }
            else { s with device := rest, pending := some bs }

/-- Thread identifiers for the scheduler. -/
inductive Tid
  | main
  | reader
  deriving Repr, DecidableEq

def step (s : Sys) : Tid → Sys
  | .main => stepMain s
  | .reader => stepReader s

/-- Run a schedule: the scheduler's choice sequence. -/
def run (s : Sys) (sched : List Tid) : Sys :=
  sched.foldl step s

/-- Initial system for the scenario `ConnectSerial(config)` (succeeding
with handle `port`) followed by `CloseSerial()`, started on a fresh
client while the device has `device` chunks to deliver. -/
def sys0 (pn : String) (port : SPort) (device : List Bytes) : Sys :=
  { client := NewClient, device := device, pending := none,
    readerSpawned := false, readerDone := false,
    prog := [.closePrev, .openOK port, .startRead, .emitConnected pn,
             .closeSerialAct],
    events := [] }

/-- Occurrences of an event in an emission log. -/
def countEv (e : Ev) : List Ev → Nat
  | [] => 0
  | x :: xs => (if x = e then 1 else 0) + countEv e xs

/-- Occurrences of an action in a foreground program. -/
def countAct (a : MAct) : List MAct → Nat
  | [] => 0
  | x :: xs => (if x = a then 1 else 0) + countAct a xs

/-! ### Concrete environment behaviours for closed evaluations -/

/-- A dial that always succeeds with `sampConn`. -/
def dialOK : String → Except String Conn := fun _ => .ok sampConn

/-- An address resolver that always succeeds. -/
def resolveOK : String → Except String String := fun a => .ok a

/-- A `serial.Open` that always fails. -/
def openFailDev : String → Mode → Except String SPort :=
  fun _ _ => .error "no such device"

/-- A `serial.Open` that always succeeds with a healthy handle on the
requested device. -/
def openOKDev : String → Mode → Except String SPort :=
  fun pn _ => .ok { name := pn, closed := false, writeErr := none,
                    closeErr := none, written := [] }

/-- State left by `ConnectSerial` on `clientSerialActive` when the open
fails: the previous handle is closed but still referenced. -/
def cStale : Client :=
  { tcpConn := none, udpConn := none,
    serialPort := some { sampPort with closed := true },
    isReading := false, stopRead := some true }

/-- State left by a successful `CloseSerial` on `clientSerialActive`. -/
def cClosed : Client :=
  { tcpConn := none, udpConn := none, serialPort := none,
    isReading := false, stopRead := some true }

/-! ## Helper lemmas -/

/-- Under the channel invariant, `stopSerialRead` never panics and acts
as the total `stopReadTotal`. -/
theorem stopSerialRead_ok (c : Client) (hinv : ChanInv c) :
    stopSerialRead c = .ok (stopReadTotal c) := by
  unfold stopSerialRead stopReadTotal
  cases hr : c.isReading
  · simp [hr]
  · simp [hr, hinv hr]

/-- A client that is not reading satisfies the channel invariant. -/
theorem chanInv_of_not_reading (c : Client) (h : c.isReading = false) :
    ChanInv c := by
  intro hr; rw [h] at hr; cases hr

theorem stopReadTotal_isReading (c : Client) :
    (stopReadTotal c).isReading = false := by
  unfold stopReadTotal; cases hr : c.isReading <;> simp [hr]

theorem stopReadTotal_serialPort (c : Client) :
    (stopReadTotal c).serialPort = c.serialPort := by
  unfold stopReadTotal; cases hr : c.isReading <;> simp [hr]

theorem stopReadTotal_tcpConn (c : Client) :
    (stopReadTotal c).tcpConn = c.tcpConn := by
  unfold stopReadTotal; cases hr : c.isReading <;> simp [hr]

theorem stopReadTotal_udpConn (c : Client) :
    (stopReadTotal c).udpConn = c.udpConn := by
  unfold stopReadTotal; cases hr : c.isReading <;> simp [hr]

theorem stopReadTotal_stopRead (c : Client) (hr : c.isReading = true) :
    (stopReadTotal c).stopRead = some true := by
  unfold stopReadTotal; simp [hr]

theorem stopReadTotal_id (c : Client) (hr : c.isReading = false) :
    stopReadTotal c = c := by
  unfold stopReadTotal; simp [hr]

/-- `ConnectSerial` on a client with no previous serial session when the
open fails. -/
theorem connectSerial_none_fail (c : Client) (config : SerialConfig)
    (openDev : String → Mode → Except String SPort) (e : String)
    (hp : c.serialPort = none)
    (hopen : openDev config.portName (mkMode config) = .error e) :
    ConnectSerial c config openDev =
      .ok (c, some (.serialOpenFailed e), []) := by
  unfold ConnectSerial
  rw [hp, hopen]
  rfl

/-- `ConnectSerial` on a client with no previous serial session when the
open succeeds with handle `port`. -/
theorem connectSerial_none_ok (c : Client) (config : SerialConfig)
    (openDev : String → Mode → Except String SPort) (port : SPort)
    (hp : c.serialPort = none)
    (hopen : openDev config.portName (mkMode config) = .ok port) :
    ConnectSerial c config openDev =
      .ok (startSerialRead { c with serialPort := some port }, none,
           [.connected config.portName]) := by
  unfold ConnectSerial
  rw [hp, hopen]
  rfl

/-- `ConnectSerial` replacing a previous serial session `h` when the open
fails: the read loop is stopped and the old closed handle stays in the
field. -/
theorem connectSerial_some_fail (c : Client) (config : SerialConfig)
    (openDev : String → Mode → Except String SPort) (h : SPort) (e : String)
    (hinv : ChanInv c) (hp : c.serialPort = some h)
    (hopen : openDev config.portName (mkMode config) = .error e) :
    ConnectSerial c config openDev =
      .ok ({ stopReadTotal c with serialPort := some (portClose h).1 },
           some (.serialOpenFailed e), []) := by
  unfold ConnectSerial
  rw [hp, stopSerialRead_ok c hinv, hopen]
  rfl

/-- `ConnectSerial` replacing a previous serial session `h` when the open
succeeds with handle `port`. -/
theorem connectSerial_some_ok (c : Client) (config : SerialConfig)
    (openDev : String → Mode → Except String SPort) (h port : SPort)
    (hinv : ChanInv c) (hp : c.serialPort = some h)
    (hopen : openDev config.portName (mkMode config) = .ok port) :
    ConnectSerial c config openDev =
      .ok (startSerialRead { stopReadTotal c with serialPort := some port },
           none, [.connected config.portName]) := by
  unfold ConnectSerial
  rw [hp, stopSerialRead_ok c hinv, hopen]
  rfl

/-- `CloseSerial` on a client with no stored serial handle. -/
theorem closeSerial_none (c : Client) (hp : c.serialPort = none) :
    CloseSerial c = .ok (c, none, []) := by
  unfold CloseSerial; rw [hp]

/-- `CloseSerial` on a client holding handle `h` whose close fails
(leaving the handle as `h'`, which `portClose` makes equal to `h`). -/
theorem closeSerial_some_fail (c : Client) (h h' : SPort) (e : String)
    (hinv : ChanInv c) (hp : c.serialPort = some h)
    (hpc : portClose h = (h', some e)) :
    CloseSerial c =
      .ok ({ stopReadTotal c with serialPort := some h' },
           some (.closeSerialFailed e), []) := by
  unfold CloseSerial
  rw [hp, stopSerialRead_ok c hinv]
  show ((match portClose h with
        | (h', err) =>
          match err with
          | some e =>
              Except.ok ({ stopReadTotal c with serialPort := some h' },
                         some (GoError.closeSerialFailed e), [])
          | none =>
              Except.ok ({ stopReadTotal c with serialPort := none },
                         none, [Ev.disconnected])) :
        Except GoPanic (Client × Option GoError × List Ev)) = _
  rw [hpc]

/-- `CloseSerial` on a client holding handle `h` whose close succeeds
(returning `h'` as the handle's post-close value). -/
theorem closeSerial_some_ok (c : Client) (h h' : SPort)
    (hinv : ChanInv c) (hp : c.serialPort = some h)
    (hpc : portClose h = (h', none)) :
    CloseSerial c =
      .ok ({ stopReadTotal c with serialPort := none }, none,
           [.disconnected]) := by
  unfold CloseSerial
  rw [hp, stopSerialRead_ok c hinv]
  show ((match portClose h with
        | (h', err) =>
          match err with
          | some e =>
              Except.ok ({ stopReadTotal c with serialPort := some h' },
                         some (GoError.closeSerialFailed e), [])
          | none =>
              Except.ok ({ stopReadTotal c with serialPort := none },
                         none, [Ev.disconnected])) :
        Except GoPanic (Client × Option GoError × List Ev)) = _
  rw [hpc]

/-! ## Claim theorems -/

/-- C9: `getStopBits` and `getParity` are pure total functions (they are
plain Lean functions, so totality is by construction): the three stop-bit
strings and five parity strings map to their library constants, and every
other input string maps to the defaults — one stop bit, no parity — never
an error. -/
theorem c9_theorem (s p : String) :
    (getStopBits Stop1 = .oneStopBit ∧
     getStopBits Stop1Half = .onePointFiveStopBits ∧
     getStopBits Stop2 = .twoStopBits) ∧
    (s ≠ Stop1 → s ≠ Stop1Half → s ≠ Stop2 → getStopBits s = .oneStopBit) ∧
    (getParity ParityNone = .noParity ∧ getParity ParityOdd = .oddParity ∧
     getParity ParityEven = .evenParity ∧ getParity ParityMark = .markParity ∧
     getParity ParitySpace = .spaceParity) ∧
    (p ≠ ParityNone → p ≠ ParityOdd → p ≠ ParityEven → p ≠ ParityMark →
     p ≠ ParitySpace → getParity p = .noParity) := by
  refine ⟨⟨rfl, rfl, rfl⟩, ?_, ⟨rfl, rfl, rfl, rfl, rfl⟩, ?_⟩ <;>
    intros <;> simp [getStopBits, getParity, *]

/-- Witness for C9: the unrecognized strings "8" and "Q" take the
defaults. -/
theorem c9_witness :
    getStopBits "8" = LibStopBits.oneStopBit ∧
    getParity "Q" = LibParity.noParity :=
  ⟨( c9_theorem "8" "Q").2.1 (by decide) (by decide) (by decide),
   ( c9_theorem "8" "Q").2.2.2 (by decide) (by decide) (by decide) (by decide)
     (by decide)⟩

/-- C7: `WriteSerial` is a total function (it cannot block or panic in
the model); with no stored serial handle it fails with the
"串口未连接" (serial not connected) error and changes nothing; with an
open handle it forwards the bytes verbatim to the handle's `Write`
(appending exactly `data` to the write log on success) and wraps the
underlying write error as the `writeFailed` error. -/
theorem c7_theorem (c : Client) (data : Bytes) :
    (c.serialPort = none → WriteSerial c data = (c, some .serialNotConnected)) ∧
    (∀ h : SPort, c.serialPort = some h → h.closed = false →
      (h.writeErr = none →
        WriteSerial c data =
          ({ c with serialPort := some { h with written := h.written ++ [data] } },
           none)) ∧
      (∀ e, h.writeErr = some e →
        WriteSerial c data = (c, some (.writeFailed e)))) := by
  constructor
  · intro hp; simp [WriteSerial, hp]
  · intro h hp hcl
    constructor
    · intro hw
      simp [WriteSerial, hp, portWrite, hcl, hw]
    · intro e hw
      have hc : { c with serialPort := some h } = c := by
        cases c; simp_all
      simp [WriteSerial, hp, portWrite, hcl, hw, hc]

/-- Witness for C7: a write on the fresh client fails with the
not-connected error; a write on the active client appends the payload. -/
theorem c7_witness :
    WriteSerial NewClient [1] = (NewClient, some GoError.serialNotConnected) ∧
    WriteSerial clientSerialActive [1, 2] =
      ({ clientSerialActive with
          serialPort := some { sampPort with written := sampPort.written ++ [[1, 2]] } },
       none) :=
  ⟨(c7_theorem NewClient [1]).1 rfl,
   ((c7_theorem clientSerialActive [1, 2]).2 sampPort rfl rfl).1 rfl⟩

/-- C10: `WriteSerial` consults only the serial field: in any state with
a TCP or UDP session active but no serial session, it fails with the
serial not-connected error and leaves the state — including the TCP and
UDP write logs — untouched. -/
theorem c10_theorem (c : Client) (data : Bytes) (hs : c.serialPort = none)
    (ht : c.tcpConn.isSome = true ∨ c.udpConn.isSome = true) :
    WriteSerial c data = (c, some .serialNotConnected) ∧
    (WriteSerial c data).1.tcpConn = c.tcpConn ∧
    (WriteSerial c data).1.udpConn = c.udpConn := by
  simp [WriteSerial, hs]

/-- Witness for C10: a client holding only an open TCP connection. -/
theorem c10_witness :
    WriteSerial clientTCPActive [7] =
      (clientTCPActive, some GoError.serialNotConnected) :=
  (c10_theorem clientTCPActive [7] rfl (Or.inl rfl)).1

/-- C2 as amended: each `SendData` branch fails with its kind-specific
not-connected error exactly when the requested kind's handle is nil —
whether or not a session of a different kind is active — performing no
write, and any kind string other than "tcp"/"udp"/"serial" yields the
unknown-connection-type error. -/
theorem c2_theorem (c : Client) (data : Bytes) (k : String) :
    (c.tcpConn = none → SendData c "tcp" data = (c, some .tcpNotConnected)) ∧
    (c.udpConn = none → SendData c "udp" data = (c, some .udpNotConnected)) ∧
    (c.serialPort = none →
      SendData c "serial" data = (c, some .serialNotConnected)) ∧
    (k ≠ "tcp" → k ≠ "udp" → k ≠ "serial" →
      SendData c k data = (c, some (.unknownConnType k))) := by
  refine ⟨?_, ?_, ?_, ?_⟩ <;> intros <;> simp [SendData, *]

/-- Witness for C2's amended theorem, at the fresh client and the kind
string "bt". -/
theorem c2_witness :
    SendData NewClient "tcp" [1] = (NewClient, some GoError.tcpNotConnected) ∧
    SendData NewClient "udp" [1] = (NewClient, some GoError.udpNotConnected) ∧
    SendData NewClient "serial" [1] =
      (NewClient, some GoError.serialNotConnected) ∧
    SendData NewClient "bt" [1] =
      (NewClient, some (GoError.unknownConnType "bt")) :=
  ⟨(c2_theorem NewClient [1] "bt").1 rfl,
   (c2_theorem NewClient [1] "bt").2.1 rfl,
   (c2_theorem NewClient [1] "bt").2.2.1 rfl,
   (c2_theorem NewClient [1] "bt").2.2.2 (by decide) (by decide) (by decide)⟩

/-- Counterexample to C2 as stated: the claim (with the spec's error
taxonomy) requires `SendData("tcp", …)` to fail with `WrongTransport`
while a serial session is active and with `NotConnected` while no session
is active — two different failure modes.  The code returns the very same
error value ("TCP未连接", i.e. the TCP not-connected error) in both
states, so no distinct `WrongTransport` failure exists; no write is
performed in either state. -/
theorem c2_counterexample :
    SendData clientSerialActive "tcp" [1] =
      (clientSerialActive, some GoError.tcpNotConnected) ∧
    SendData NewClient "tcp" [1] = (NewClient, some GoError.tcpNotConnected) :=
  ⟨rfl, rfl⟩

/-- C4 (code bug): with a serial session active on "COM3" and the
enumerator returning ["COM3", "COM4"], the code marks BOTH descriptors
`isOpen = true` — `isCurrentPort` is a stub that ignores the port name —
while the claim requires only the matching "COM3" descriptor to be
marked.  With no serial session, no descriptor is marked (this half
agrees with the claim). -/
theorem c4_theorem :
    GetSerialPorts clientSerialActive (.ok ["COM3", "COM4"]) =
      .ok [{ name := "COM3", description := "COM3", isOpen := true },
           { name := "COM4", description := "COM4", isOpen := true }] ∧
    GetSerialPorts NewClient (.ok ["COM3", "COM4"]) =
      .ok [{ name := "COM3", description := "COM3", isOpen := false },
           { name := "COM4", description := "COM4", isOpen := false }] :=
  ⟨rfl, rfl⟩

/-- C8: `CloseSerial` is idempotent.  Closing with no stored handle is a
no-op success; under the channel invariant the first call never panics,
and whatever state `c₁` it produces, a second call returns `.ok` (so no
panic and in particular no double close of the cancellation channel),
leaves `c₁` exactly unchanged, emits nothing, and reports either success
or the very error the first call already reported. -/
theorem c8_theorem (c : Client) (hinv : ChanInv c) :
    (c.serialPort = none → CloseSerial c = .ok (c, none, [])) ∧
    (CloseSerial c).isOk = true ∧
    (∀ c₁ r₁ ev₁, CloseSerial c = .ok (c₁, r₁, ev₁) →
      CloseSerial c₁ = .ok (c₁, none, []) ∨ CloseSerial c₁ = .ok (c₁, r₁, [])) := by
  cases hp : c.serialPort with
  | none =>
      have hfirst := closeSerial_none c hp
      refine ⟨fun _ => hfirst, by rw [hfirst]; rfl, fun c₁ r₁ ev₁ hcs => ?_⟩
      rw [hfirst] at hcs
      injection hcs with h'
      have hc : c₁ = c := (congrArg Prod.fst h').symm
      have hr : r₁ = none := (congrArg (fun x => x.2.1) h').symm
      rw [hc, hr]
      exact Or.inl (closeSerial_none c hp)
  | some h =>
      cases hhc : h.closed with
      | true =>
          have hpc : portClose h = (h, none) := by simp [portClose, hhc]
          have hfirst := closeSerial_some_ok c h h hinv hp hpc
          refine ⟨fun hno => absurd hno (by simp),
            (by rw [hfirst]; rfl), fun c₁ r₁ ev₁ hcs => ?_⟩
          rw [hfirst] at hcs
          injection hcs with h'
          have hc : c₁ = { stopReadTotal c with serialPort := none } :=
            (congrArg Prod.fst h').symm
          have hr : r₁ = none := (congrArg (fun x => x.2.1) h').symm
          rw [hc, hr]
          exact Or.inl (closeSerial_none _ rfl)
      | false =>
          cases hce : h.closeErr with
          | some e =>
              have hpc : portClose h = (h, some e) := by
                simp [portClose, hhc, hce]
              have hfirst := closeSerial_some_fail c h h e hinv hp hpc
              refine ⟨fun hno => absurd hno (by simp),
                (by rw [hfirst]; rfl), fun c₁ r₁ ev₁ hcs => ?_⟩
              rw [hfirst] at hcs
              injection hcs with h'
              have hc : c₁ = { stopReadTotal c with serialPort := some h } :=
                (congrArg Prod.fst h').symm
              have hr : r₁ = some (.closeSerialFailed e) :=
                (congrArg (fun x => x.2.1) h').symm
              rw [hc, hr]
              right
              have hir : ({ stopReadTotal c with serialPort := some h } :
                  Client).isReading = false := stopReadTotal_isReading c
              have h2 := closeSerial_some_fail
                { stopReadTotal c with serialPort := some h } h h e
                (chanInv_of_not_reading _ hir) rfl hpc
              rw [stopReadTotal_id _ hir] at h2
              exact h2
          | none =>
              have hpc : portClose h = ({ h with closed := true }, none) := by
                simp [portClose, hhc, hce]
              have hfirst := closeSerial_some_ok c h _ hinv hp hpc
              refine ⟨fun hno => absurd hno (by simp),
                (by rw [hfirst]; rfl), fun c₁ r₁ ev₁ hcs => ?_⟩
              rw [hfirst] at hcs
              injection hcs with h'
              have hc : c₁ = { stopReadTotal c with serialPort := none } :=
                (congrArg Prod.fst h').symm
              have hr : r₁ = none := (congrArg (fun x => x.2.1) h').symm
              rw [hc, hr]
              exact Or.inl (closeSerial_none _ rfl)

/-- Witness for C8: on the active client, the first `CloseSerial`
succeeds and the second one is a no-op success on the resulting state. -/
theorem c8_witness :
    CloseSerial cClosed = .ok (cClosed, none, []) ∨
    CloseSerial cClosed = .ok (cClosed, none, []) :=
  (c8_theorem clientSerialActive (by decide)).2.2 cClosed none [.disconnected] rfl

/-- Counterexample to C1 as stated: with a serial session active (read
loop running), a successful `ConnectTCP` leaves BOTH the serial and the
TCP session fields non-empty and the read loop untouched — `ConnectTCP`
closes only a previous TCP connection, never the serial (or UDP) one. -/
theorem c1_counterexample :
    ConnectTCP clientSerialActive { address := "127.0.0.1:9000" } dialOK =
      ({ clientSerialActive with tcpConn := some sampConn }, none) ∧
    ({ clientSerialActive with tcpConn := some sampConn }).serialPort.isSome
      = true ∧
    ({ clientSerialActive with tcpConn := some sampConn }).tcpConn.isSome
      = true ∧
    ({ clientSerialActive with tcpConn := some sampConn }).isReading = true :=
  ⟨rfl, rfl, rfl, rfl⟩

/-- C1 as amended: each Connect operation applies the replace-then-open
discipline only to a previous session of its own kind and leaves the
fields of the other kinds (and, for TCP/UDP, the read-loop state)
untouched, so several session fields may be non-empty simultaneously. -/
theorem c1_theorem (c : Client) (tc : TCPConfig) (uc : UDPConfig)
    (sc : SerialConfig) (dialT dialU : String → Except String Conn)
    (resolve : String → Except String String)
    (openDev : String → Mode → Except String SPort) (hinv : ChanInv c) :
    ((ConnectTCP c tc dialT).1.serialPort = c.serialPort ∧
     (ConnectTCP c tc dialT).1.udpConn = c.udpConn ∧
     (ConnectTCP c tc dialT).1.isReading = c.isReading ∧
     (ConnectTCP c tc dialT).1.stopRead = c.stopRead) ∧
    ((ConnectUDP c uc resolve dialU).1.serialPort = c.serialPort ∧
     (ConnectUDP c uc resolve dialU).1.tcpConn = c.tcpConn ∧
     (ConnectUDP c uc resolve dialU).1.isReading = c.isReading ∧
     (ConnectUDP c uc resolve dialU).1.stopRead = c.stopRead) ∧
    (∃ c' r ev, ConnectSerial c sc openDev = .ok (c', r, ev) ∧
      c'.tcpConn = c.tcpConn ∧ c'.udpConn = c.udpConn) := by
  refine ⟨?_, ?_, ?_⟩
  · unfold ConnectTCP
    cases htc : c.tcpConn with
    | none => cases hd : dialT tc.address <;> simp [hd]
    | some hT => cases hd : dialT tc.address <;> simp [hd]
  · unfold ConnectUDP
    cases huc : c.udpConn with
    | none =>
        cases hr : resolve uc.address with
        | error e => simp
        | ok addr => cases hd : dialU addr <;> simp [hd]
    | some hU =>
        cases hr : resolve uc.address with
        | error e => simp
        | ok addr => cases hd : dialU addr <;> simp [hd]
  · cases hp : c.serialPort with
    | none =>
        cases ho : openDev sc.portName (mkMode sc) with
        | error e =>
            exact ⟨c, some (.serialOpenFailed e), [],
              connectSerial_none_fail c sc openDev e hp ho, rfl, rfl⟩
        | ok port =>
            exact ⟨startSerialRead { c with serialPort := some port }, none,
              [.connected sc.portName],
              connectSerial_none_ok c sc openDev port hp ho, rfl, rfl⟩
    | some h =>
        cases ho : openDev sc.portName (mkMode sc) with
        | error e =>
            exact ⟨{ stopReadTotal c with serialPort := some (portClose h).1 },
              some (.serialOpenFailed e), [],
              connectSerial_some_fail c sc openDev h e hinv hp ho,
              stopReadTotal_tcpConn c, stopReadTotal_udpConn c⟩
        | ok port =>
            exact ⟨startSerialRead { stopReadTotal c with serialPort := some port },
              none, [.connected sc.portName],
              connectSerial_some_ok c sc openDev h port hinv hp ho,
              stopReadTotal_tcpConn c, stopReadTotal_udpConn c⟩

/-- Witness for C1's amended theorem: `ConnectTCP` on the serial-active
client does not disturb the serial session field. -/
theorem c1_witness :
    (ConnectTCP clientSerialActive { address := "10.0.0.1:80" } dialOK).1.serialPort
      = clientSerialActive.serialPort :=
  (c1_theorem clientSerialActive { address := "10.0.0.1:80" }
    { address := "10.0.0.1:80" } cfg9600 dialOK dialOK resolveOK openOKDev
    (by decide)).1.1

/-- Counterexample to C3 as stated: when a previous serial session was
active and `serial.Open` fails, `ConnectSerial` returns the open error
and emits nothing, but the `serialPort` field still holds the old
(now closed) handle — the manager is NOT left with no active session, and
a subsequent `WriteSerial` fails with `writeFailed` ("port closed"),
not with the `serialNotConnected` error the claim requires. -/
theorem c3_counterexample :
    ConnectSerial clientSerialActive cfg9600 openFailDev =
      .ok (cStale, some (.serialOpenFailed "no such device"), []) ∧
    cStale.serialPort.isSome = true ∧
    WriteSerial cStale [1] = (cStale, some (.writeFailed "port closed")) :=
  ⟨rfl, rfl, rfl⟩

/-- C3 as amended: on open failure `ConnectSerial` returns the
`serialOpenFailed` error and emits nothing; when no session was
previously active the state is unchanged and a subsequent `WriteSerial`
fails with the not-connected error, but when a previous serial session
`h` was active, the field keeps the closed old handle `(portClose h).1`
(with the read loop stopped), so the manager is not sessionless. -/
theorem c3_theorem (c : Client) (cfg : SerialConfig)
    (openDev : String → Mode → Except String SPort) (e : String)
    (data : Bytes) (hinv : ChanInv c)
    (hopen : openDev cfg.portName (mkMode cfg) = .error e) :
    (c.serialPort = none →
      ConnectSerial c cfg openDev = .ok (c, some (.serialOpenFailed e), []) ∧
      WriteSerial c data = (c, some .serialNotConnected)) ∧
    (∀ h : SPort, c.serialPort = some h →
      ∃ c', ConnectSerial c cfg openDev =
          .ok (c', some (.serialOpenFailed e), []) ∧
        c'.serialPort = some (portClose h).1 ∧ c'.isReading = false) := by
  constructor
  · intro hp
    exact ⟨connectSerial_none_fail c cfg openDev e hp hopen,
      by simp [WriteSerial, hp]⟩
  · intro h hp
    exact ⟨{ stopReadTotal c with serialPort := some (portClose h).1 },
      connectSerial_some_fail c cfg openDev h e hinv hp hopen, rfl,
      stopReadTotal_isReading c⟩

/-- Witness for C3's amended theorem: open failure on the fresh client
leaves it unchanged and a subsequent write is not-connected. -/
theorem c3_witness :
    ConnectSerial NewClient cfg9600 openFailDev =
      .ok (NewClient, some (GoError.serialOpenFailed "no such device"), []) ∧
    WriteSerial NewClient [1] = (NewClient, some GoError.serialNotConnected) :=
  (c3_theorem NewClient cfg9600 openFailDev "no such device" [1]
    (by decide) rfl).1 rfl

/-- Counterexample to C6 as stated: `Close` (the close-all operation)
closes and clears the serial session handle WITHOUT retiring the
cancellation state — starting from the active client it leaves
`isReading = true` and the `stopRead` channel allocated and unclosed
while no serial session remains, violating both halves of the claimed
invariant. -/
theorem c6_counterexample :
    Close clientSerialActive =
      { tcpConn := none, udpConn := none, serialPort := none,
        isReading := true, stopRead := some false } ∧
    (Close clientSerialActive).isReading = true ∧
    (Close clientSerialActive).serialPort = none :=
  ⟨rfl, rfl, rfl⟩

/-- C6 as amended: `CloseSerial` and the replacement path of
`ConnectSerial` retire the cancellation state (the `isReading` flag is
cleared and, if reading was started, the `stopRead` channel is closed)
before/while disposing of the session handle, but `Close` (close-all)
clears the serial handle leaving `isReading` and `stopRead` untouched,
so the claimed invariant fails on the close-all path. -/
theorem c6_theorem (c : Client) (h : SPort) (cfg : SerialConfig)
    (openDev : String → Mode → Except String SPort)
    (hinv : ChanInv c) (hp : c.serialPort = some h) :
    (∃ c' r ev, CloseSerial c = .ok (c', r, ev) ∧ c'.isReading = false ∧
      (c.isReading = true → c'.stopRead = some true)) ∧
    (∀ e, openDev cfg.portName (mkMode cfg) = .error e →
      ∃ c', ConnectSerial c cfg openDev =
          .ok (c', some (.serialOpenFailed e), []) ∧
        c'.isReading = false ∧ (c.isReading = true → c'.stopRead = some true)) ∧
    ((Close c).isReading = c.isReading ∧ (Close c).stopRead = c.stopRead ∧
     (Close c).serialPort = none) := by
  refine ⟨?_, ?_, ?_⟩
  · rcases hpc : portClose h with ⟨h', err⟩
    cases err with
    | some e0 =>
        exact ⟨{ stopReadTotal c with serialPort := some h' },
          some (.closeSerialFailed e0), [],
          closeSerial_some_fail c h h' e0 hinv hp hpc,
          stopReadTotal_isReading c, fun hr => stopReadTotal_stopRead c hr⟩
    | none =>
        exact ⟨{ stopReadTotal c with serialPort := none }, none,
          [.disconnected], closeSerial_some_ok c h h' hinv hp hpc,
          stopReadTotal_isReading c, fun hr => stopReadTotal_stopRead c hr⟩
  · intro e he
    exact ⟨{ stopReadTotal c with serialPort := some (portClose h).1 },
      connectSerial_some_fail c cfg openDev h e hinv hp he,
      stopReadTotal_isReading c, fun hr => stopReadTotal_stopRead c hr⟩
  · unfold Close
    cases htc : c.tcpConn <;> cases huc : c.udpConn <;> simp [hp, htc, huc]

/-- Witness for C6's amended theorem: close-all on the active client
leaves the read flag set and the channel unclosed. -/
theorem c6_witness :
    (Close clientSerialActive).isReading = clientSerialActive.isReading ∧
    (Close clientSerialActive).stopRead = clientSerialActive.stopRead ∧
    (Close clientSerialActive).serialPort = none :=
  (c6_theorem clientSerialActive sampPort cfg9600 openFailDev
    (by decide) rfl).2.2

/-- Appending one event to a log adds its occurrence count. -/
theorem countEv_append (e : Ev) (l : List Ev) (x : Ev) :
    countEv e (l ++ [x]) = countEv e l + (if x = e then 1 else 0) := by
  induction l with
  | nil => simp [countEv]
  | cons y ys ih => simp [countEv, ih]; omega

/-- One step of either thread preserves the sum of `serial:connected`
emissions already in the log and `emitConnected` actions still pending in
the foreground program. -/
theorem c5_step_count (pn : String) (s : Sys) (t : Tid) :
    countEv (Ev.connected pn) (step s t).events +
      countAct (MAct.emitConnected pn) (step s t).prog =
    countEv (Ev.connected pn) s.events +
      countAct (MAct.emitConnected pn) s.prog := by
  cases t with
  | reader =>
      show countEv (Ev.connected pn) (stepReader s).events +
          countAct (MAct.emitConnected pn) (stepReader s).prog = _
      unfold stepReader
      repeat' split
      all_goals simp [countEv_append]
  | main =>
      show countEv (Ev.connected pn) (stepMain s).events +
          countAct (MAct.emitConnected pn) (stepMain s).prog = _
      unfold stepMain
      cases hprog : s.prog with
      | nil => rw [hprog]
      | cons act rest =>
          cases act with
          | closePrev =>
              cases hsp : s.client.serialPort <;> simp [hsp, countAct]
          | openOK port => simp [countAct]
          | startRead => simp [countAct]
          | emitConnected pn' =>
              by_cases hpn : pn' = pn
              · subst hpn; simp [countEv_append, countAct]; omega
              · simp [countEv_append, countAct, hpn]
          | closeSerialAct =>
              cases hsp : s.client.serialPort with
              | none => simp [hsp, countAct]
              | some hh =>
                  rcases hpc : portClose hh with ⟨h2, err⟩
                  cases err <;> simp [hsp, hpc, countAct, countEv_append]

/-- The step-count invariant extended over a whole schedule. -/
theorem c5_run_count (pn : String) (sched : List Tid) (s : Sys) :
    countEv (Ev.connected pn) (run s sched).events +
      countAct (MAct.emitConnected pn) (run s sched).prog =
    countEv (Ev.connected pn) s.events +
      countAct (MAct.emitConnected pn) s.prog := by
  induction sched generalizing s with
  | nil => rfl
  | cons t ts ih =>
      rw [show run s (t :: ts) = run (step s t) ts from rfl, ih (step s t),
        c5_step_count pn s t]

/-- Counterexample to C5 as stated: in the interleaved execution of a
successful `ConnectSerial` (followed by `CloseSerial`) with its read
goroutine, the goroutine is spawned by `startSerialRead` BEFORE
`runtime.EventsEmit(ctx, "serial:connected", …)` runs, so a schedule
exists in which the sink receives `serial:data` before
`serial:connected`; and because the goroutine's emit happens well after
its `Read` returns, another schedule delivers a `serial:data` event after
the `serial:disconnected` emitted by `CloseSerial`. -/
theorem c5_counterexample :
    (run (sys0 "COM3" sampPort [[65, 66]])
        [Tid.main, Tid.main, Tid.main, Tid.reader, Tid.reader, Tid.main,
         Tid.main]).events =
      [Ev.data [65, 66], Ev.connected "COM3", Ev.disconnected] ∧
    (run (sys0 "COM3" sampPort [[65, 66]])
        [Tid.main, Tid.main, Tid.main, Tid.main, Tid.reader, Tid.main,
         Tid.reader]).events =
      [Ev.connected "COM3", Ev.disconnected, Ev.data [65, 66]] :=
  ⟨rfl, rfl⟩

/-- C5 as amended: for the scenario of a successful `ConnectSerial`
followed by `CloseSerial`, under EVERY schedule the sink receives at most
one `serial:connected` event, and exactly one once the foreground calls
have run to completion — but no ordering of `serial:data` relative to
`serial:connected` / `serial:disconnected` is guaranteed (the
counterexample exhibits both inversions). -/
theorem c5_theorem (pn : String) (port : SPort) (device : List Bytes)
    (sched : List Tid) :
    countEv (Ev.connected pn) (run (sys0 pn port device) sched).events ≤ 1 ∧
    ((run (sys0 pn port device) sched).prog = [] →
      countEv (Ev.connected pn) (run (sys0 pn port device) sched).events
        = 1) := by
  have h := c5_run_count pn sched (sys0 pn port device)
  have h0 : countEv (Ev.connected pn) (sys0 pn port device).events = 0 := rfl
  have h1 : countAct (MAct.emitConnected pn) (sys0 pn port device).prog = 1 := by
    simp [sys0, countAct]
  rw [h0, h1] at h
  constructor
  · omega
  · intro hdone
    rw [hdone] at h
    simp [countAct] at h
    omega

/-- Witness for C5's amended theorem: the schedule that runs the
foreground to completion yields exactly one `serial:connected`. -/
theorem c5_witness :
    countEv (Ev.connected "COM3")
      (run (sys0 "COM3" sampPort [])
        [Tid.main, Tid.main, Tid.main, Tid.main, Tid.main]).events = 1 :=
  ( c5_theorem "COM3" sampPort []
    [Tid.main, Tid.main, Tid.main, Tid.main, Tid.main]).2 rfl

end Backup
